import Mathlib

/-!
Verification development for `geotools2mapnik.py`, a translator from OGC
Styled Layer Descriptor (SLD) XML documents to mapnik map/style models.

The Python source is shallowly embedded: XML element trees become inductive
data, the translation functions become Lean functions of the same names, and
Python exceptions (`AssertionError`, `AttributeError` from lxml-objectify
attribute access on a missing child, `NameError` for an unbound name,
`ValueError` from `float()` on a bad string, plain `Exception`, `IndexError`,
`KeyError`) become an `Except PyErr` result.  Numeric values that the source
merely parses with `float()` and stores (stroke widths, opacities, scale
denominators) are kept as their source text, guarded by a faithful model of
which strings Python's `float()` accepts; the source performs no arithmetic
on them.
-/

namespace Geotools2Mapnik

/-! ## Python string primitives

`pat in s`, `s.startswith(p)`, `s.endswith(p)`, `s.strip()` on `str`,
modelled on `List Char` by plain structural recursion so that everything
reduces computationally. -/

/-- Boolean test that `p` is a prefix of `s` (as char lists). -/
def chPrefix : List Char → List Char → Bool
  | [], _ => true
  | _ :: _, [] => false
  | p :: ps, c :: cs => p == c && chPrefix ps cs

/-- Boolean test that `p` occurs as a contiguous segment of `s`. -/
def chInfix (p : List Char) : List Char → Bool
  | [] => p.isEmpty
  | c :: cs => chPrefix p (c :: cs) || chInfix p cs

/-- Boolean test that `p` is a suffix of `s`. -/
def chSuffix (p s : List Char) : Bool := chPrefix p.reverse s.reverse

/-- Python `pat in s` for strings. -/
def pyIn (pat s : String) : Bool := chInfix pat.data s.data

/-- Python `s.startswith(pat)`. -/
def pyStartsWith (s pat : String) : Bool := chPrefix pat.data s.data

/-- Python `s.endswith(pat)`. -/
def pyEndsWith (s pat : String) : Bool := chSuffix pat.data s.data

/-- The characters Python's `str.strip()` and `float()` treat as whitespace. -/
def isPySpace (c : Char) : Bool :=
  c == ' ' || c == '\t' || c == '\n' || c == '\r' || c == '\x0b' || c == '\x0c'

/-- Python `s.strip()`. -/
def pyStrip (s : String) : String :=
  ⟨((s.data.dropWhile isPySpace).reverse.dropWhile isPySpace).reverse⟩

/-! ## Python `float()` acceptance

`is_number` (source lines 40–49) calls `float(s)` and reports whether it
raises `ValueError`.  This models which strings CPython 2's `float()`
accepts: optional surrounding whitespace, an optional sign, then either a
decimal number (`digits`, `digits.`, `.digits`, `digits.digits`, with an
optional `e`/`E` exponent carrying an optional sign and at least one digit)
or a case-insensitive `inf`/`infinity`/`nan`. -/

/-- Drop one leading `+`/`-` sign. -/
def dropSign : List Char → List Char
  | [] => []
  | c :: cs => if c == '+' || c == '-' then cs else c :: cs

/-- Accept an optional exponent part, which must then end the string. -/
def pyExpOk : List Char → Bool
  | [] => true
  | c :: cs =>
    if c == 'e' || c == 'E' then
      let ds := dropSign cs
      !ds.isEmpty && ds.all Char.isDigit
    else false

/-- Whether CPython's `float(s)` succeeds on `s`. -/
def pyFloatAccepts (s : String) : Bool :=
  let cs := ((s.data.dropWhile isPySpace).reverse.dropWhile isPySpace).reverse
  let cs := dropSign cs
  let low := cs.map Char.toLower
  if low == "inf".data || low == "infinity".data || low == "nan".data then true
  else
    let intPart := cs.takeWhile Char.isDigit
    let rest := cs.dropWhile Char.isDigit
    match rest with
    | '.' :: r2 =>
      let frac := r2.takeWhile Char.isDigit
      let r3 := r2.dropWhile Char.isDigit
      (!intPart.isEmpty || !frac.isEmpty) && pyExpOk r3
    | _ => !intPart.isEmpty && pyExpOk rest

/-! ## Embedded Python exceptions -/

/-- The exceptions the translated code can raise. -/
inductive PyErr where
  /-- an unbound name was read (`NameError: name '…' is not defined`) -/
  | nameError (name : String)
  /-- lxml-objectify attribute access on an element with no such child -/
  | attributeError (child : String)
  /-- a failed `assert`; the payload abbreviates the offending construct -/
  | assertionError (what : String)
  /-- `float()` applied to a string it does not accept -/
  | valueError (text : String)
  /-- `raise Exception(msg)` -/
  | exceptionMsg (msg : String)
  /-- indexing an empty child list (`getchildren()[0]`) -/
  | indexError (i : Nat)
  /-- dictionary lookup miss (`type_map[type]`) -/
  | keyError (key : String)
  /-- modelling artifact: a rule child whose tag and embedded payload
      disagree; never produced for data that encodes a real XML tree -/
  | payloadMismatch
  deriving DecidableEq, Repr

/-- Error-propagating map over a list, the shape of the source's `for` loops
and list comprehensions over fallible element translations. -/
def exMap (g : α → Except PyErr β) : List α → Except PyErr (List β)
  | [] => .ok []
  | a :: as => do
    let b ← g a
    let bs ← exMap g as
    .ok (b :: bs)

/-- Error-propagating left fold, the shape of the source's parameter loops
that update one accumulator object. -/
def exFold (g : β → α → Except PyErr β) : β → List α → Except PyErr β
  | b, [] => .ok b
  | b, a :: as => do
    let b' ← g b a
    exFold g b' as

/-! ## OGC filter predicate trees (source lines 80–124)

An OGC Filter-Encoding predicate node: qualified tag, text content, child
elements.  The forest of children is its own inductive so that the
expression compiler is plain mutual structural recursion. -/

mutual
/-- One XML element of an OGC filter predicate tree. -/
inductive PNode : Type where
  | mk (tag : String) (text : String) (children : PForest)

/-- An ordered list of `PNode` siblings. -/
inductive PForest : Type where
  | nil
  | cons (head : PNode) (tail : PForest)
end

/-- The qualified tag of a node. -/
def PNode.tag : PNode → String
  | .mk t _ _ => t

/-- The text content of a node. -/
def PNode.text : PNode → String
  | .mk _ x _ => x

/-- The child forest of a node. -/
def PNode.children : PNode → PForest
  | .mk _ _ c => c

/-- The children as a `List`, for the binary-operator compiler which takes
`prop.iterchildren()` as a Python list. -/
def PForest.toList : PForest → List PNode
  | .nil => []
  | .cons h t => h :: t.toList

/-- lxml-objectify attribute access `parent.Child`: the first child with the
given qualified tag, `AttributeError` when there is none. -/
def PForest.findTag (tag : String) : PForest → Except PyErr PNode
  | .nil => .error (.attributeError tag)
  | .cons h t => if h.tag = tag then .ok h else t.findTag tag

/-- Qualified name in the OGC filter namespace. -/
def ogcTag (n : String) : String := "{http://www.opengis.net/ogc}" ++ n

/-- Qualified name in the SLD namespace (source `_sld_tag`, lines 268–269). -/
def sldTag (n : String) : String := "{http://www.opengis.net/sld}" ++ n

/-- Source `is_number` (lines 40–49): `float(s)` accepts the text and the
text does not start with the character `0`. -/
def is_number (s : String) : Bool :=
  if pyStartsWith s "0" then false else pyFloatAccepts s

/-- Source `_translate_literal_or_property_name` (lines 109–117): a
numeric-looking `Literal` is emitted bare, any other `Literal` single-quoted,
a `PropertyName` bracketed; anything else is an `AssertionError`. -/
def _translate_literal_or_property_name (e : PNode) : Except PyErr String :=
  if pyIn "Literal" e.tag then
    if is_number e.text then .ok e.text else .ok ("'" ++ e.text ++ "'")
  else if pyIn "PropertyName" e.tag then .ok ("[" ++ e.text ++ "]")
  else .error (.assertionError e.tag)

/-- The string a `Literal` with text `t` compiles to (the `Literal` branch of
`_translate_literal_or_property_name`), named for reuse in statements. -/
def litRepr (t : String) : String :=
  if is_number t then t else "'" ++ t ++ "'"

/-- Source `_compile_bin_op` (lines 103–106): translate all operand nodes,
assert there are exactly two, join with the operator. -/
def _compile_bin_op (operator : String) (argNodes : List PNode) :
    Except PyErr String := do
  let ops ← exMap _translate_literal_or_property_name argNodes
  match ops with
  | [a, b] => .ok (a ++ " " ++ operator ++ " " ++ b)
  | _ => .error (.assertionError "len(ops)==2")

mutual
/-- Source `_ogc_filter_to_expression` (lines 80–101).  Dispatch is by
substring containment on the qualified tag, tested in source order; a tag
containing none of the seven substrings raises `AssertionError` (the payload
abbreviates the serialized node to its tag). -/
def _ogc_filter_to_expression : PNode → Except PyErr String
  | .mk tag _ children =>
    if pyIn "And" tag then
      (compileForest children).map (String.intercalate " and ")
    else if pyIn "Or" tag then
      (compileForest children).map (String.intercalate " or ")
    else if pyIn "PropertyIsGreaterThan" tag then
      _compile_bin_op ">" children.toList
    else if pyIn "PropertyIsLessThan" tag then
      _compile_bin_op "<" children.toList
    else if pyIn "PropertyIsEqualTo" tag then
      _compile_bin_op "=" children.toList
    else if pyIn "PropertyIsNotEqualTo" tag then
      _compile_bin_op "!=" children.toList
    else if pyIn "PropertyIsBetween" tag then do
      let nameN ← children.findTag (ogcTag "PropertyName")
      let lb ← children.findTag (ogcTag "LowerBoundary")
      let loLit ← lb.children.findTag (ogcTag "Literal")
      let cqlLo ← _compile_bin_op ">" [nameN, loLit]
      let ub ← children.findTag (ogcTag "UpperBoundary")
      let hiLit ← ub.children.findTag (ogcTag "Literal")
      let cqlHi ← _compile_bin_op "<" [nameN, hiLit]
      .ok (cqlLo ++ "and " ++ cqlHi)
    else .error (.assertionError tag)

/-- The compiled children of an `And`/`Or` node, in document order. -/
def compileForest : PForest → Except PyErr (List String)
  | .nil => .ok []
  | .cons h t => do
    let s ← _ogc_filter_to_expression h
    let rest ← compileForest t
    .ok (s :: rest)
end

/-- Source `ogc_filter_to_mapnik` (lines 119–124): compile the first child
of the `Filter` element (an empty `Filter` is an `IndexError`); the mapnik
`Expression` object just wraps the compiled string. -/
def ogc_filter_to_mapnik (filterChildren : PForest) : Except PyErr String :=
  match filterChildren with
  | .nil => .error (.indexError 0)
  | .cons c _ => _ogc_filter_to_expression c

/-! ## Symbolizer nodes and mapnik symbolizer objects (source lines 126–361)

Values the source only parses with `float()` and stores are kept as their
validated source text; mapnik color construction (`mapnik.Color(text)`) is
external and kept as the color text. -/

/-- One SLD `CssParameter` element: its `name` attribute and its text. -/
structure CssParameter where
  name : String
  text : String
  deriving DecidableEq, Repr

/-- An SLD `Stroke` element: its `CssParameter` children. -/
structure StrokeNode where
  cssParameters : List CssParameter
  deriving DecidableEq, Repr

/-- mapnik line cap styles. -/
inductive LineCap where
  | squareCap
  | buttCap
  | roundCap
  deriving DecidableEq, Repr

/-- mapnik line join styles. -/
inductive LineJoin where
  | bevelJoin
  | roundJoin
  | miterJoin
  deriving DecidableEq, Repr

/-- Source `get_cap` (lines 64–70). -/
def get_cap (cap : String) : LineCap :=
  if cap = "square" then .squareCap
  else if cap = "flat" then .buttCap
  else .roundCap

/-- Source `get_join` (lines 72–78). -/
def get_join (join : String) : LineJoin :=
  if join = "bevel" then .bevelJoin
  else if join = "round" then .roundJoin
  else .miterJoin

/-- A mapnik `Stroke` object.  Fields the source never assigns stay `none`
(mapnik's own defaults are external to the translation). -/
structure MStroke where
  color : Option String := none
  width : Option String := none
  opacity : Option String := none
  dashes : List (String × String) := []
  lineCap : Option LineCap := none
  lineJoin : Option LineJoin := none
  dashOffset : Option String := none
  deriving DecidableEq, Repr

/-- `float(text)`: succeeds exactly when Python's `float()` accepts the
text, else `ValueError`. -/
def pyFloatCheck (text : String) : Except PyErr Unit :=
  if pyFloatAccepts text then .ok () else .error (.valueError text)

/-- Split a dash-array text as the source does: `css.text.strip().split(' ')`
then `map(float, …)`, keeping each token's text. -/
def dashTokens (text : String) : Except PyErr (List String) :=
  exMap (fun t => do pyFloatCheck t; .ok t) ((pyStrip text).splitOn " ")

/-- Group a dash list into `(on, off)` pairs as the source's
`xrange(0, len, 2)` loop does (the even-length assert has already run). -/
def pairUp : List String → List (String × String)
  | a :: b :: rest => (a, b) :: pairUp rest
  | _ => []

/-- One iteration of the `for css in stroke.CssParameter` loop of
`stroke_to_mapnik` (source lines 128–149). -/
def applyStrokeParam (ms : MStroke) (css : CssParameter) : Except PyErr MStroke :=
  if css.name = "stroke" then .ok { ms with color := some css.text }
  else if css.name = "stroke-width" then do
    pyFloatCheck css.text
    .ok { ms with width := some css.text }
  else if css.name = "stroke-opacity" then do
    pyFloatCheck css.text
    .ok { ms with opacity := some css.text }
  else if css.name = "stroke-dasharray" then do
    let dashes ← dashTokens css.text
    if dashes.length % 2 = 0 then
      .ok { ms with dashes := ms.dashes ++ pairUp dashes }
    else
      .error (.assertionError "dashes")
  else if css.name = "stroke-linecap" then
    .ok { ms with lineCap := some (get_cap css.text) }
  else if css.name = "stroke-join" then
    .ok { ms with lineJoin := some (get_join css.text) }
  else if css.name = "stroke-linejoin" then
    .ok { ms with lineJoin := some (get_join css.text) }
  else if css.name = "stroke-dashoffset" then do
    pyFloatCheck css.text
    .ok { ms with dashOffset := some css.text }
  else .error (.exceptionMsg ("unhanded: " ++ css.name))

/-- Source `stroke_to_mapnik` (lines 126–150).  `stroke.CssParameter` with no
such child is an lxml `AttributeError`; otherwise the parameters update a
fresh `mapnik.Stroke` in document order. -/
def stroke_to_mapnik (stroke : StrokeNode) : Except PyErr MStroke :=
  if stroke.cssParameters.isEmpty then .error (.attributeError "CssParameter")
  else exFold applyStrokeParam {} stroke.cssParameters

/-- A mapnik `PolygonSymbolizer` object. -/
structure MPoly where
  fill : Option String := none
  opacity : Option String := none
  deriving DecidableEq, Repr

/-- One iteration of the `for css in fill.CssParameter` loop of
`ogc_PolygonSymbolizer_to_mapnik` (source lines 287–293). -/
def applyFillParam (mp : MPoly) (css : CssParameter) : Except PyErr MPoly :=
  if css.name = "fill" then .ok { mp with fill := some css.text }
  else if css.name = "fill-opacity" then do
    pyFloatCheck css.text
    .ok { mp with opacity := some css.text }
  else .error (.exceptionMsg ("unhanded: " ++ css.name))

/-- The `Fill` handling of the polygon translator: absent `Fill` leaves the
default `mapnik.PolygonSymbolizer()`; a `Fill` with no `CssParameter` child
is an `AttributeError`; otherwise the parameters are applied in order. -/
def processPolyFill : Option (List CssParameter) → Except PyErr MPoly
  | none => .ok {}
  | some ps =>
    if ps.isEmpty then .error (.attributeError "CssParameter")
    else exFold applyFillParam {} ps

/-- An SLD `PolygonSymbolizer` element: optional `Fill` (its `CssParameter`
children) and optional `Stroke`. -/
structure PolygonSymNode where
  fill : Option (List CssParameter) := none
  stroke : Option StrokeNode := none
  deriving DecidableEq, Repr

/-- An SLD `LineSymbolizer` element: its `Stroke` child, if any (access to a
missing one is an `AttributeError`). -/
structure LineSymNode where
  stroke : Option StrokeNode := none
  deriving DecidableEq, Repr

/-- An SLD `Halo` element under a `TextSymbolizer`. -/
structure HaloNode where
  radius : Option String := none
  fillParams : List CssParameter := []
  deriving DecidableEq, Repr

/-- An SLD `TextSymbolizer` element. -/
structure TextSymNode where
  label : Option String := none
  fontParams : List CssParameter := []
  fillParams : List CssParameter := []
  linePlacement : Bool := false
  halo : Option HaloNode := none
  deriving DecidableEq, Repr

/-- An SLD `ColorMapEntry` element. -/
structure ColorMapEntry where
  color : String
  opacity : Option String := none
  quantity : String
  label : Option String := none
  deriving DecidableEq, Repr

/-- An SLD `ColorMap` element: optional `type` attribute and its entries. -/
structure ColorMapNode where
  type : Option String := none
  entries : List ColorMapEntry := []
  deriving DecidableEq, Repr

/-- An SLD `RasterSymbolizer` element. -/
structure RasterSymNode where
  colorMap : Option ColorMapNode := none
  deriving DecidableEq, Repr

/-- mapnik raster colorizer modes (`COLORIZER_LINEAR` / `_DISCRETE` /
`_EXACT`). -/
inductive ColorizerMode where
  | linear
  | discrete
  | exact
  deriving DecidableEq, Repr

/-- A mapnik `RasterSymbolizer` with its colorizer: mode and stops
`(quantity, color, opacity, label)`; the base color is always transparent. -/
structure MRaster where
  mode : ColorizerMode
  stops : List (String × String × String × String) := []
  deriving DecidableEq, Repr

/-- A mapnik `TextSymbolizer` object (never constructed: see
`ogc_TextSymbolizer_to_mapnik`). -/
structure MText where
  labelExpr : String
  faceName : String
  size : String
  fillColor : String
  deriving DecidableEq, Repr

/-- The tagged union of mapnik symbolizer objects a rule can hold. -/
inductive Symbolizer where
  | line (stroke : MStroke)
  | polygon (poly : MPoly)
  | point
  | text (t : MText)
  | raster (r : MRaster)
  deriving DecidableEq, Repr

/-- Source `ogc_LineSymbolyzer_to_mapnik` (lines 276–280, keeping the
source's spelling): `sym.Stroke` (AttributeError when absent), build the
stroke, yield one line symbolizer. -/
def ogc_LineSymbolyzer_to_mapnik (sym : LineSymNode) : Except PyErr (List Symbolizer) :=
  match sym.stroke with
  | none => .error (.attributeError "Stroke")
  | some st => do
    let ms ← stroke_to_mapnik st
    .ok [.line ms]

/-- Source `ogc_PolygonSymbolizer_to_mapnik` (lines 282–298): build the
polygon from the optional `Fill`; when a `Stroke` is present, yield a line
symbolizer built from it before yielding the polygon. -/
def ogc_PolygonSymbolizer_to_mapnik (sym : PolygonSymNode) : Except PyErr (List Symbolizer) := do
  let mp ← processPolyFill sym.fill
  match sym.stroke with
  | some st => do
    let ms ← stroke_to_mapnik st
    .ok [.line ms, .polygon mp]
  | none => .ok [.polygon mp]

/-- Source `ogc_PointSymbolizer_to_mapnik` (lines 300–305): a stub that
yields one default point symbolizer whatever the input. -/
def ogc_PointSymbolizer_to_mapnik : Except PyErr (List Symbolizer) :=
  .ok [.point]

/-- Source `ogc_TextSymbolizer_to_mapnik` (lines 307–337).  Its first
statement is `text.Label.find("{%s}PropertyName" % rule.nsmap['ogc'])`.
Python evaluates the callable `text.Label.find` before the argument, so a
`TextSymbolizer` without a `Label` child raises `AttributeError` on the
`text.Label` access first.  With a `Label` present, the argument is
evaluated next — and `rule` is not a name in scope there (it is a local
variable of `ogc_rule_to_mapnik`, and no module-level `rule` is ever
assigned), so Python raises `NameError: name 'rule' is not defined` before
any of the label/font/fill logic can run.  Either way the translator can
never yield a text symbolizer. -/
def ogc_TextSymbolizer_to_mapnik (text : TextSymNode) : Except PyErr (List Symbolizer) :=
  match text.label with
  | none => .error (.attributeError "Label")
  | some _ => .error (.nameError "rule")

/-- The `type_map` lookup of the raster translator (source lines 344–349):
`ramp`/`intervals`/`values`, anything else a `KeyError`. -/
def rasterTypeMap (ty : String) : Except PyErr ColorizerMode :=
  if ty = "ramp" then .ok .linear
  else if ty = "intervals" then .ok .discrete
  else if ty = "values" then .ok .exact
  else .error (.keyError ty)

/-- One `ColorMapEntry` of the raster translator (source lines 351–358):
`color` attribute kept as text, `opacity` defaulting to `1` and `quantity`
both validated as floats, `label` defaulting to the empty string. -/
def rasterStop (c : ColorMapEntry) : Except PyErr (String × String × String × String) := do
  let op := c.opacity.getD "1"
  pyFloatCheck op
  pyFloatCheck c.quantity
  .ok (c.quantity, c.color, op, c.label.getD "")

/-- Source `ogc_RasterSymbolizer_to_mapnik` (lines 339–360): nothing is
yielded without a `ColorMap`; with one, the `type` attribute (default
`ramp`) picks the colorizer mode and each entry becomes a stop.  Iterating
`sym.ColorMap.ColorMapEntry` with no entry child is an `AttributeError`. -/
def ogc_RasterSymbolizer_to_mapnik (sym : RasterSymNode) : Except PyErr (List Symbolizer) :=
  match sym.colorMap with
  | none => .ok []
  | some cm => do
    let mode ← rasterTypeMap (cm.type.getD "ramp")
    if cm.entries.isEmpty then .error (.attributeError "ColorMapEntry")
    else do
      let stops ← exMap rasterStop cm.entries
      .ok [.raster { mode := mode, stops := stops }]

/-! ## Rule assembler (source lines 234–273) -/

/-- The payload of one child element of a `Rule`, as the tag-based dispatch
of `ogc_rule_to_mapnik` sees it: the five symbolizer kinds, or any other
element (`Name`, `Filter`, an unknown symbolizer, …) whose content the rule
assembler never inspects.  Encoding a real XML child always pairs a
registered tag with its own payload kind. -/
inductive SymPayload where
  | lineSym (s : LineSymNode)
  | polySym (p : PolygonSymNode)
  | pointSym
  | textSym (t : TextSymNode)
  | rasterSym (r : RasterSymNode)
  | other
  deriving DecidableEq, Repr

/-- One child element of a `Rule`: its qualified tag and its payload. -/
structure RuleChild where
  tag : String
  payload : SymPayload
  deriving DecidableEq, Repr

/-- An SLD `Rule` element.  `filter` holds the children of the namespaced
`ogc:Filter` child when present; `elseFilter` records an `ElseFilter`
child; the scale denominators keep their text; `children` are the rule's
child elements in document order, as iterated for symbolizer dispatch. -/
structure RuleNode where
  name : Option String := none
  filter : Option PForest := none
  elseFilter : Bool := false
  maxScale : Option String := none
  minScale : Option String := none
  children : List RuleChild := []

/-- A mapnik `Rule` object. -/
structure MRule where
  name : String
  filter : Option String := none
  elseFlag : Bool := false
  maxScale : Option String := none
  minScale : Option String := none
  symbols : List Symbolizer := []
  deriving DecidableEq, Repr

/-- The five registered translators (`_translators`, filled by the
`@translates_sld` decorations at source lines 276, 282, 300, 307, 339). -/
inductive Translator where
  | line
  | poly
  | point
  | text
  | raster
  deriving DecidableEq, Repr

/-- Source `get_translator` (lines 272–273): exact lookup of the child's
qualified tag in the registry. -/
def get_translator (tag : String) : Option Translator :=
  if tag = sldTag "LineSymbolizer" then some .line
  else if tag = sldTag "PolygonSymbolizer" then some .poly
  else if tag = sldTag "PointSymbolizer" then some .point
  else if tag = sldTag "TextSymbolizer" then some .text
  else if tag = sldTag "RasterSymbolizer" then some .raster
  else none

/-- Run a registered translator on a child's payload.  The point translator
ignores its input (it is a stub in the source).  A tag/payload mismatch
cannot arise from an encoded XML tree and is flagged as a modelling
artifact. -/
def applyTranslator : Translator → SymPayload → Except PyErr (List Symbolizer)
  | .line, .lineSym s => ogc_LineSymbolyzer_to_mapnik s
  | .poly, .polySym p => ogc_PolygonSymbolizer_to_mapnik p
  | .point, _ => ogc_PointSymbolizer_to_mapnik
  | .text, .textSym t => ogc_TextSymbolizer_to_mapnik t
  | .raster, .rasterSym r => ogc_RasterSymbolizer_to_mapnik r
  | _, _ => .error .payloadMismatch

/-- The message `log.warn` receives for an unknown symbolizer tag
(source lines 254–255). -/
def warnMsg (tag : String) : String :=
  "Could not translate symbolizer '" ++ tag ++ "'"

/-- One iteration of the symbolizer loop of `ogc_rule_to_mapnik` (source
lines 248–255): children whose tag contains `Symbolizer` are dispatched
through the registry; a registry miss contributes no symbolizers and one
logged warning; other children are skipped silently. -/
def processChild (c : RuleChild) : Except PyErr (List Symbolizer × List String) :=
  if pyIn "Symbolizer" c.tag then
    match get_translator c.tag with
    | some tr => (applyTranslator tr c.payload).map (fun syms => (syms, []))
    | none => .ok ([], [warnMsg c.tag])
  else .ok ([], [])

/-- `float(…)` validation of an optional scale denominator. -/
def scaleCheck : Option String → Except PyErr Unit
  | some s => pyFloatCheck s
  | none => .ok ()

/-- The part of `ogc_rule_to_mapnik` before the symbolizer loop (source
lines 236–245), which never reads the rule's children: compile the optional
filter, validate the optional scale denominators, return the compiled
filter string. -/
def rulePrelim (rule : RuleNode) : Except PyErr (Option String) := do
  let filt ← match rule.filter with
    | some f => (ogc_filter_to_mapnik f).map some
    | none => pure none
  scaleCheck rule.maxScale
  scaleCheck rule.minScale
  .ok filt

/-- Source `ogc_rule_to_mapnik` (lines 234–259), returning the built rule
together with the warnings logged for unrecognized symbolizer tags.  The
else-flag is only consulted when no filter is present (lines 237–241). -/
def ogc_rule_to_mapnik (rule : RuleNode) : Except PyErr (MRule × List String) := do
  let nm := rule.name.getD ""
  let filt ← rulePrelim rule
  let elseFlag := rule.filter.isNone && rule.elseFilter
  let results ← exMap processChild rule.children
  .ok ({ name := nm, filter := filt, elseFlag := elseFlag,
         maxScale := rule.maxScale, minScale := rule.minScale,
         symbols := (results.map Prod.fst).flatten },
       (results.map Prod.snd).flatten)

/-! ## Style/layer assembler (source lines 209–231) -/

/-- An SLD `FeatureTypeStyle` element: optional `Name` child and its
`Rule` children. -/
structure FTSNode where
  name : Option String := none
  rules : List RuleNode := []

/-- An SLD `UserStyle` element: its `FeatureTypeStyle` children. -/
structure UserStyleNode where
  featureTypeStyles : List FTSNode := []

/-- An SLD `NamedLayer`/`UserLayer` element: optional `Name` child and its
`UserStyle` children. -/
structure LayerNode where
  name : Option String := none
  userStyles : List UserStyleNode := []

/-- A mapnik `Style` object. -/
structure MStyle where
  rules : List MRule := []
  deriving DecidableEq, Repr

/-- A mapnik `Layer` object. -/
structure MLayer where
  name : String
  styleNames : List String := []
  datasource : Option String := none
  srs : Option String := none
  deriving DecidableEq, Repr

/-- Python truthiness of an optional objectify string element under `or` /
`if not`: absent or empty text is falsy. -/
def orDefault (v : Option String) (dflt : String) : String :=
  match v with
  | some s => if s = "" then dflt else s
  | none => dflt

/-- The style name chosen at index `idx` (source lines 218–221): the
`FeatureTypeStyle`'s own `Name` when present and non-empty, else
`'%s %s' % (m_layer.name, str(idx))`. -/
def styNameFor (layerName : String) (idx : Nat) (name : Option String) : String :=
  orDefault name (layerName ++ " " ++ toString idx)

/-- The inner `for feature_style in user_style.FeatureTypeStyle` loop of
`ogc_layer_to_mapnik`, threading the layer-local style index: yields the
style-name list, the `(name, style)` pairs and the updated index. -/
def processFTS (layerName : String) :
    Nat → List FTSNode → Except PyErr (List String × List (String × MStyle) × Nat)
  | idx, [] => .ok ([], [], idx)
  | idx, fts :: rest => do
    let nm := styNameFor layerName idx fts.name
    if fts.rules.isEmpty then .error (.attributeError "Rule")
    else do
      let mrules ← exMap (fun r => (ogc_rule_to_mapnik r).map Prod.fst) fts.rules
      let (ns, sts, idx') ← processFTS layerName (idx + 1) rest
      .ok (nm :: ns, (nm, { rules := mrules }) :: sts, idx')

/-- The outer `for user_style in layer.UserStyle` loop of
`ogc_layer_to_mapnik`: accessing `user_style.FeatureTypeStyle` on a
`UserStyle` with no such child is an `AttributeError`. -/
def processUS (layerName : String) :
    Nat → List UserStyleNode → Except PyErr (List String × List (String × MStyle) × Nat)
  | idx, [] => .ok ([], [], idx)
  | idx, us :: rest =>
    if us.featureTypeStyles.isEmpty then .error (.attributeError "FeatureTypeStyle")
    else
      match processFTS layerName idx us.featureTypeStyles with
      | .error e => .error e
      | .ok (ns1, sts1, idx1) =>
        match processUS layerName idx1 rest with
        | .error e => .error e
        | .ok (ns2, sts2, idx2) => .ok (ns1 ++ ns2, sts1 ++ sts2, idx2)

/-- Source `ogc_layer_to_mapnik` (lines 209–231).  `idx = 0` is a local of
this function, so the style-name index restarts at zero for every layer.
Accessing `layer.UserStyle` on a layer with no `UserStyle` child is an
`AttributeError`. -/
def ogc_layer_to_mapnik (layer : LayerNode) :
    Except PyErr (MLayer × List (String × MStyle)) := do
  let lname := orDefault layer.name "Layer"
  if layer.userStyles.isEmpty then .error (.attributeError "UserStyle")
  else do
    let (ns, sts, _) ← processUS lname 0 layer.userStyles
    .ok ({ name := lname, styleNames := ns }, sts)

/-! ## Map builder (source lines 169–207) -/

/-- The SLD document root: its `NamedLayer` and `UserLayer` children. -/
structure SLDRoot where
  namedLayers : List LayerNode := []
  userLayers : List LayerNode := []

/-- A mapnik `Map` object: spatial reference, registered styles in
registration order, layers in append order. -/
structure MMap where
  srs : String
  layers : List MLayer := []
  styles : List (String × MStyle) := []
  deriving DecidableEq, Repr

/-- The spatial reference a fresh `mapnik.Map(1,1)` carries (external
mapnik default, opaque to the translation). -/
def defaultSrs : String := "+proj=longlat +ellps=WGS84 +datum=WGS84 +no_defs"

/-- The layer loop of `main` (lines 185–197): translate each `NamedLayer`
then `UserLayer`, register its styles, attach the datasource when one was
given, copy the map srs onto the layer, append the layer. -/
def buildLayers (root : SLDRoot) (datasource : Option String) : Except PyErr MMap := do
  let step := fun (m : MMap) (layer : LayerNode) => do
    let (mLayer, styles) ← ogc_layer_to_mapnik layer
    .ok { m with
          styles := m.styles ++ styles,
          layers := m.layers ++
            [{ mLayer with datasource := datasource, srs := some m.srs }] }
  exFold step { srs := defaultSrs } (root.namedLayers ++ root.userLayers)

/-- Source `main` (lines 169–207).  When a datasource is supplied and ends
in `shp`, the source runs `if srid is not None:` (line 177); but `srid` is
never bound — `main` never reads `options['srid']` and no global `srid`
exists — so Python raises `NameError: name 'srid' is not defined` there,
before any layer is translated (`proj4_from_osr` on the `else` branch of
that same dead `if` is unreachable too).  Without a `shp` datasource the
layer loop runs normally. -/
def main (root : SLDRoot) (datasource : Option String) (_srid : Option Int) :
    Except PyErr MMap :=
  match datasource with
  | some ds =>
    if pyEndsWith ds "shp" then .error (.nameError "srid")
    else buildLayers root (some ds)
  | none => buildLayers root none

/-! ## Color normalizer (source lines 37–38 and 152–166) -/

/-- Two-lowercase-hex-digit rendering of one color component, Python's
`'%02x'`: zero-padded to width two, longer (unpadded) above 255. -/
def hex2 (n : Nat) : String :=
  if n < 256 then ⟨[Nat.digitChar (n / 16), Nat.digitChar (n % 16)]⟩
  else ⟨Nat.toDigits 16 n⟩

/-- Source `rgb_to_hex` (lines 37–38): `'#%02x%02x%02x' % triplet`. -/
def rgb_to_hex (triplet : Nat × Nat × Nat) : String :=
  "#" ++ hex2 triplet.1 ++ hex2 triplet.2.1 ++ hex2 triplet.2.2

/-- A symbolizer element of the serialized map document: tag and
attribute list. -/
structure SymChild where
  tag : String
  attrs : List (String × String)
  deriving DecidableEq, Repr

/-- A `Rule` element of the serialized map document. -/
structure ORule where
  children : List SymChild
  deriving DecidableEq, Repr

/-- A `Style` element of the serialized map document. -/
structure OStyle where
  rules : List ORule
  deriving DecidableEq, Repr

/-- The root of the serialized map document. -/
structure OTree where
  styles : List OStyle
  deriving DecidableEq, Repr

/-- One attribute rewrite of `fix_colors` (source lines 160–166): a value
starting with `rgb(` is parsed by the external `mapnik.Color` (the
`parseColor` collaborator, yielding the `(r, g, b)` components) and
re-rendered in hex; any other value is untouched. -/
def fixAttr (parseColor : String → Nat × Nat × Nat) (a : String × String) :
    String × String :=
  if pyStartsWith a.2 "rgb(" then (a.1, rgb_to_hex (parseColor a.2)) else a

/-- Rewrite one rule child (source lines 158–166): only elements whose tag
ends in `Symbolizer` have their attributes rewritten. -/
def fixChild (parseColor : String → Nat × Nat × Nat) (c : SymChild) : SymChild :=
  if pyEndsWith c.tag "Symbolizer" then
    { c with attrs := c.attrs.map (fixAttr parseColor) }
  else c

/-- Rewrite one rule's children. -/
def fixRule (parseColor : String → Nat × Nat × Nat) (r : ORule) : ORule :=
  { r with children := r.children.map (fixChild parseColor) }

/-- Rewrite one style (source lines 154–157): iterating `style.Rule` on a
style with no rule child is an `AttributeError`; the `if len(style.Rule)`
guard can only be reached when the access succeeded. -/
def fixStyle (parseColor : String → Nat × Nat × Nat) (st : OStyle) :
    Except PyErr OStyle :=
  if st.rules.isEmpty then .error (.attributeError "Rule")
  else .ok { st with rules := st.rules.map (fixRule parseColor) }

/-- Source `fix_colors` (lines 152–166), over the document root.  Without a
`Style` child (`hasattr(tree,'Style')` false) nothing is touched.  (As
called from `main`, the source passes the lxml `ElementTree` object rather
than its root, on which `hasattr(tree, 'Style')` is always false; the
function itself is modelled over the root as its body expects.) -/
def fix_colors (parseColor : String → Nat × Nat × Nat) (t : OTree) :
    Except PyErr OTree :=
  if t.styles.isEmpty then .ok t
  else do
    let styles' ← exMap (fixStyle parseColor) t.styles
    .ok { t with styles := styles' }

/-! ## Auxiliary definitions for statements, and concrete sample inputs -/

/-- Decidable equality of results, so witnesses can be settled by `decide`. -/
instance [DecidableEq ε] [DecidableEq α] : DecidableEq (Except ε α) := fun x y =>
  match x, y with
  | .ok a, .ok b =>
    if h : a = b then .isTrue (by rw [h]) else .isFalse (fun hc => h (Except.ok.inj hc))
  | .error a, .error b =>
    if h : a = b then .isTrue (by rw [h]) else .isFalse (fun hc => h (Except.error.inj hc))
  | .ok _, .error _ => .isFalse (fun hc => Except.noConfusion hc)
  | .error _, .ok _ => .isFalse (fun hc => Except.noConfusion hc)

/-- Specification-side rendering of the per-layer style-naming loop: the
names the `FeatureTypeStyle` list receives when the counter starts at
`idx`, one increment per `FeatureTypeStyle`. -/
def namesFrom (layerName : String) : Nat → List FTSNode → List String
  | _, [] => []
  | idx, fts :: rest =>
    styNameFor layerName idx fts.name :: namesFrom layerName (idx + 1) rest

/-- All `FeatureTypeStyle` nodes of a layer, in document order. -/
def layerFTS (layer : LayerNode) : List FTSNode :=
  (layer.userStyles.map UserStyleNode.featureTypeStyles).flatten

/-- A `NamedLayer` named `roads` with one unnamed `FeatureTypeStyle`
holding one trivial rule. -/
def roadsLayer : LayerNode :=
  { name := some "roads",
    userStyles := [{ featureTypeStyles := [{ rules := [{}] }] }] }

/-- A `NamedLayer` named `water` with one unnamed `FeatureTypeStyle`
holding one trivial rule. -/
def waterLayer : LayerNode :=
  { name := some "water",
    userStyles := [{ featureTypeStyles := [{ rules := [{}] }] }] }

/-- A document with the two layers `roads` and `water`, each carrying one
unnamed `FeatureTypeStyle` (the scenario of the style-naming claim). -/
def roadsWaterDoc : SLDRoot := { namedLayers := [roadsLayer, waterLayer] }

/-- A rule child with a tag that ends in `Symbolizer` but is registered to
no translator. -/
def fooSymChild : RuleChild := ⟨sldTag "FooSymbolizer", .other⟩

/-- The polygon scenario: `Fill` with `fill=#ff0000`, `Stroke` with
`stroke=#000000` and `stroke-width=2`. -/
def polyScenario : PolygonSymNode :=
  { fill := some [⟨"fill", "#ff0000"⟩],
    stroke := some ⟨[⟨"stroke", "#000000"⟩, ⟨"stroke-width", "2"⟩]⟩ }

/-- A serialized document with one symbolizer attribute in `rgb(…)` form. -/
def rgbSampleTree : OTree :=
  { styles := [⟨[⟨[⟨"PolygonSymbolizer", [("fill", "rgb(255,0,0)")]⟩]⟩]⟩] }

/-- `rgbSampleTree` after one color-normalizer pass. -/
def rgbSampleFixed : OTree :=
  { styles := [⟨[⟨[⟨"PolygonSymbolizer", [("fill", "#ff0000")]⟩]⟩]⟩] }

/-- The color parse a sample normalizer run uses for `rgb(255,0,0)`. -/
def sampleParse : String → Nat × Nat × Nat := fun _ => (255, 0, 0)

/-! ## Theorems: string primitives -/

theorem chPrefix_iff : ∀ p s : List Char, chPrefix p s = true ↔ p <+: s := by
  intro p
  induction p with
  | nil => intro s; simp [chPrefix, List.nil_prefix]
  | cons a ps ih =>
    intro s
    cases s with
    | nil => simp [chPrefix]
    | cons b cs =>
      simp only [chPrefix, Bool.and_eq_true, beq_iff_eq, List.cons_prefix_cons, ih]

theorem chInfix_iff : ∀ p s : List Char, chInfix p s = true ↔ p <:+: s := by
  intro p s
  induction s with
  | nil => simp [chInfix, List.isEmpty_iff, List.infix_nil]
  | cons c cs ih =>
    simp only [chInfix, Bool.or_eq_true, chPrefix_iff, ih, List.infix_cons_iff]

theorem chSuffix_iff (p s : List Char) : chSuffix p s = true ↔ p <:+ s := by
  rw [chSuffix, chPrefix_iff, List.reverse_prefix]

/-- A string ending in `pat` also contains `pat`: relates the rule
assembler's substring test `'Symbolizer' in tag` to tags ending in
`Symbolizer`. -/
theorem pyIn_of_pyEndsWith {s pat : String} (h : pyEndsWith s pat = true) :
    pyIn pat s = true := by
  rw [pyEndsWith, chSuffix_iff] at h
  rw [pyIn, chInfix_iff]
  exact h.isInfix

/-- `String.append` concatenates the underlying character lists. -/
theorem strData_append (a b : String) : (a ++ b).data = a.data ++ b.data := by
  cases a
  cases b
  rfl

/-! ## Theorems: generic facts about the error-propagating combinators -/

theorem exBind_ok {ε α β : Type} (a : α) (f : α → Except ε β) :
    (Except.ok a >>= f) = f a := rfl

theorem exBind_err {ε α β : Type} (e : ε) (f : α → Except ε β) :
    ((Except.error e : Except ε α) >>= f) = .error e := rfl

theorem exMapF_ok {ε α β : Type} (f : α → β) (a : α) :
    Except.map f (Except.ok a : Except ε α) = .ok (f a) := rfl

theorem exMapF_err {ε α β : Type} (f : α → β) (e : ε) :
    Except.map f (Except.error e : Except ε α) = .error e := rfl

theorem exMap_length (g : α → Except PyErr β) :
    ∀ l res, exMap g l = .ok res → res.length = l.length := by
  intro l
  induction l with
  | nil => intro res h; cases h; rfl
  | cons a as ih =>
    intro res h
    rw [exMap] at h
    cases hg : g a with
    | error e => rw [hg] at h; cases h
    | ok b =>
      rw [hg] at h
      cases hr : exMap g as with
      | error e => rw [hr] at h; cases h
      | ok bs =>
        rw [hr] at h
        cases h
        simp [ih bs hr]

theorem exMap_cons_ok (g : α → Except PyErr β) (a : α) (l : List α) (b : β)
    (h : g a = .ok b) :
    exMap g (a :: l) = (exMap g l).map (fun bs => b :: bs) := by
  rw [exMap, h]
  cases exMap g l <;> rfl

/-- A pointwise-idempotent fallible pass is idempotent on a whole list. -/
theorem exMap_invol (g : α → Except PyErr α)
    (hg : ∀ a b, g a = .ok b → g b = .ok b) :
    ∀ l l', exMap g l = .ok l' → exMap g l' = .ok l' := by
  intro l
  induction l with
  | nil => intro l' h; cases h; rfl
  | cons a as ih =>
    intro l' h
    rw [exMap] at h
    cases ha : g a with
    | error e => rw [ha] at h; cases h
    | ok b =>
      rw [ha] at h
      cases hr : exMap g as with
      | error e => rw [hr] at h; cases h
      | ok bs =>
        rw [hr] at h
        cases h
        rw [exMap, hg a b ha, ih bs hr]
        rfl

/-! ## Theorems: the style/layer assembler loops -/

theorem namesFrom_append (layerName : String) :
    ∀ (a b : List FTSNode) (idx : Nat),
      namesFrom layerName idx (a ++ b) =
        namesFrom layerName idx a ++ namesFrom layerName (idx + a.length) b := by
  intro a
  induction a with
  | nil => intro b idx; simp [namesFrom]
  | cons fts rest ih =>
    intro b idx
    simp only [List.cons_append, namesFrom, List.length_cons, List.append_eq]
    rw [ih]
    have h12 : idx + 1 + rest.length = idx + (rest.length + 1) := by omega
    rw [h12]

/-- Everything the inner `FeatureTypeStyle` loop guarantees on success:
the synthesized names, one per `FeatureTypeStyle` with the counter stepping
by one, the final counter value, and non-emptiness of every rule list. -/
theorem processFTS_ok (layerName : String) :
    ∀ (l : List FTSNode) (idx : Nat) (ns : List String)
      (sts : List (String × MStyle)) (idx' : Nat),
      processFTS layerName idx l = .ok (ns, sts, idx') →
      ns = namesFrom layerName idx l ∧
      sts.map Prod.fst = ns ∧
      idx' = idx + l.length ∧
      (∀ fts ∈ l, fts.rules ≠ []) ∧
      (∀ p ∈ sts, p.2.rules ≠ []) ∧
      sts.length = l.length := by
  intro l
  induction l with
  | nil =>
    intro idx ns sts idx' h
    cases h
    simp [namesFrom]
  | cons fts rest ih =>
    intro idx ns sts idx' h
    rw [processFTS] at h
    cases hre : fts.rules.isEmpty with
    | true => rw [hre] at h; cases h
    | false =>
      rw [hre] at h
      simp only [Bool.false_eq_true, if_false] at h
      cases hm : exMap (fun r => (ogc_rule_to_mapnik r).map Prod.fst) fts.rules with
      | error e => rw [hm] at h; cases h
      | ok mrules =>
        rw [hm] at h
        cases hp : processFTS layerName (idx + 1) rest with
        | error e => rw [hp] at h; cases h
        | ok trip =>
          rw [hp] at h
          obtain ⟨ns2, sts2, idx2⟩ := trip
          cases h
          obtain ⟨e1, e2, e3, e4, e5, e6⟩ := ih (idx + 1) ns2 sts2 idx2 hp
          have hrne : fts.rules ≠ [] := by
            intro hnil
            rw [hnil] at hre
            simp [List.isEmpty] at hre
          have hmne : mrules ≠ [] := by
            have hlen := exMap_length _ _ _ hm
            intro hnil
            rw [hnil] at hlen
            exact hrne (List.eq_nil_of_length_eq_zero hlen.symm)
          refine ⟨by simp [namesFrom, e1], by simp [e2], by simp [e3]; omega,
            ?_, ?_, by simp [e6]⟩
          · intro f hf
            cases hf with
            | head => exact hrne
            | tail _ hf' => exact e4 f hf'
          · intro p hp'
            cases hp' with
            | head => exact hmne
            | tail _ hp'' => exact e5 p hp''

/-- Everything the outer `UserStyle` loop guarantees on success. -/
theorem processUS_ok (layerName : String) :
    ∀ (l : List UserStyleNode) (idx : Nat) (ns : List String)
      (sts : List (String × MStyle)) (idx' : Nat),
      processUS layerName idx l = .ok (ns, sts, idx') →
      ns = namesFrom layerName idx ((l.map UserStyleNode.featureTypeStyles).flatten) ∧
      sts.map Prod.fst = ns ∧
      (∀ us ∈ l, us.featureTypeStyles ≠ []) ∧
      (∀ us ∈ l, ∀ fts ∈ us.featureTypeStyles, fts.rules ≠ []) ∧
      (∀ p ∈ sts, p.2.rules ≠ []) ∧
      (l ≠ [] → sts ≠ []) := by
  intro l
  induction l with
  | nil =>
    intro idx ns sts idx' h
    cases h
    simp [namesFrom]
  | cons us rest ih =>
    intro idx ns sts idx' h
    rw [processUS] at h
    split at h
    · cases h
    · rename_i hfe
      split at h
      · cases h
      · rename_i ns1 sts1 idx1 hf
        split at h
        · cases h
        · rename_i ns2 sts2 idx2 hu
          cases h
          obtain ⟨f1, f2, f3, f4, f5, f6⟩ := processFTS_ok layerName _ _ _ _ _ hf
          obtain ⟨u1, u2, u3, u4, u5, u6⟩ := ih idx1 ns2 sts2 _ hu
          have hfne : us.featureTypeStyles ≠ [] := by
            intro hnil
            rw [hnil] at hfe
            exact hfe rfl
          refine ⟨?_, by simp [f2, u2], ?_, ?_, ?_, ?_⟩
          · rw [List.map_cons, List.flatten_cons, namesFrom_append, f1, u1, f3]
          · intro u hu'
            cases hu' with
            | head => exact hfne
            | tail _ hu'' => exact u3 u hu''
          · intro u hu'
            cases hu' with
            | head => exact f4
            | tail _ hu'' => exact u4 u hu''
          · intro p hp'
            rcases List.mem_append.mp hp' with hcase | hcase
            · exact f5 p hcase
            · exact u5 p hcase
          · intro _
            have hs1 : sts1 ≠ [] := by
              intro hnil
              rw [hnil] at f6
              exact hfne (List.eq_nil_of_length_eq_zero f6.symm)
            intro happ
            exact hs1 (List.append_eq_nil.mp happ).1

/-! ## Theorems: leaf translation of the expression compiler -/

theorem translate_literal (t : String) :
    _translate_literal_or_property_name (.mk (ogcTag "Literal") t .nil) =
      .ok (litRepr t) := by
  simp only [_translate_literal_or_property_name, PNode.tag, PNode.text, litRepr,
    (by decide : pyIn "Literal" (ogcTag "Literal") = true)]
  cases h : is_number t <;> simp [h]

theorem translate_property_name (nm : String) :
    _translate_literal_or_property_name (.mk (ogcTag "PropertyName") nm .nil) =
      .ok ("[" ++ nm ++ "]") := by
  simp [_translate_literal_or_property_name, PNode.tag, PNode.text,
    (by decide : pyIn "Literal" (ogcTag "PropertyName") = false),
    (by decide : pyIn "PropertyName" (ogcTag "PropertyName") = true)]

/-! ## Claim theorems -/

/-- C1, counterexample: in the scenario with two layers named `roads` and
`water`, each holding one `FeatureTypeStyle` without a `Name`, the program
synthesizes the style names `roads 0` and `water 0` — not `roads 0` and
`water 1` as the claim states — because `idx = 0` is a local of
`ogc_layer_to_mapnik` and therefore resets for every layer. -/
theorem c1_counterexample :
    (main roadsWaterDoc none none).map (fun m => m.styles.map Prod.fst) =
      .ok ["roads 0", "water 0"] ∧
    ¬((main roadsWaterDoc none none).map (fun m => m.styles.map Prod.fst) =
      .ok ["roads 0", "water 1"]) :=
  ⟨rfl, by decide⟩

/-- C1, amended: the style-name index is local to each layer (reset to zero
per `ogc_layer_to_mapnik` call) and increments once per `FeatureTypeStyle`
within that layer, so the style names of any successfully translated layer
are `namesFrom` its name starting at 0; in the two-layer scenario the
synthesized names are `roads 0` and `water 0`. -/
theorem c1_amended_index_reset_per_layer (layer : LayerNode) (ml : MLayer)
    (styles : List (String × MStyle))
    (h : ogc_layer_to_mapnik layer = .ok (ml, styles)) :
    styles.map Prod.fst = namesFrom ml.name 0 (layerFTS layer) ∧
    (main roadsWaterDoc none none).map (fun m => m.styles.map Prod.fst) =
      .ok ["roads 0", "water 0"] := by
  refine ⟨?_, rfl⟩
  simp only [ogc_layer_to_mapnik] at h
  split at h
  · cases h
  · cases hp : processUS (orDefault layer.name "Layer") 0 layer.userStyles with
    | error e => rw [hp] at h; cases h
    | ok trip =>
      rw [hp] at h
      obtain ⟨ns, sts, idxE⟩ := trip
      cases h
      obtain ⟨u1, u2, _, _, _, _⟩ := processUS_ok _ _ _ _ _ _ hp
      rw [u2, u1]
      rfl

/-- C1, amended, witness at the `roads` layer. -/
theorem c1_amended_witness :
    ([("roads 0", ({ rules := [{ name := "" }] } : MStyle))] :
        List (String × MStyle)).map Prod.fst =
      namesFrom "roads" 0 (layerFTS roadsLayer) ∧
    (main roadsWaterDoc none none).map (fun m => m.styles.map Prod.fst) =
      .ok ["roads 0", "water 0"] :=
  c1_amended_index_reset_per_layer roadsLayer
    { name := "roads", styleNames := ["roads 0"] }
    [("roads 0", { rules := [{ name := "" }] })] (by rfl)

/-- C2 (code bug in the source): for every `TextSymbolizer` that has a
`Label` child, the text translator's first statement reads the unbound name
`rule` (source line 309, `rule.nsmap['ogc']`, where only
`ogc_rule_to_mapnik` has a local `rule`), so the invocation raises
`NameError` instead of yielding one Text symbolizer, and a rule containing
such a `TextSymbolizer` child aborts with that error.  (Without a `Label`
child the translator dies one step earlier, on the `text.Label` attribute
access.) -/
theorem c2_text_translator_raises_name_error (t : TextSymNode) (lbl : String)
    (h : t.label = some lbl) :
    ogc_TextSymbolizer_to_mapnik t = .error (.nameError "rule") ∧
    ogc_rule_to_mapnik { children := [⟨sldTag "TextSymbolizer", .textSym t⟩] } =
      .error (.nameError "rule") := by
  have h1 : ogc_TextSymbolizer_to_mapnik t = .error (.nameError "rule") := by
    rw [ogc_TextSymbolizer_to_mapnik, h]
  refine ⟨h1, ?_⟩
  have hg : get_translator (sldTag "TextSymbolizer") = some .text := by decide
  have h2 : processChild ⟨sldTag "TextSymbolizer", .textSym t⟩ =
      .error (.nameError "rule") := by
    simp [processChild, hg, applyTranslator, h1, exMapF_err,
      (by decide : pyIn "Symbolizer" (sldTag "TextSymbolizer") = true)]
  have h3 : rulePrelim
      { children := [⟨sldTag "TextSymbolizer", .textSym t⟩] } = .ok none := rfl
  have h4 : exMap processChild [⟨sldTag "TextSymbolizer", .textSym t⟩] =
      .error (.nameError "rule") := by
    rw [exMap, h2]
    rfl
  rw [ogc_rule_to_mapnik, h3]
  simp only [exBind_ok]
  rw [h4]
  rfl

/-- C2, witness: a `TextSymbolizer` whose `Label` text is `NAME`. -/
theorem c2_witness :
    ogc_TextSymbolizer_to_mapnik { label := some "NAME" } =
      .error (.nameError "rule") ∧
    ogc_rule_to_mapnik
        { children := [⟨sldTag "TextSymbolizer",
            .textSym { label := some "NAME" }⟩] } =
      .error (.nameError "rule") :=
  c2_text_translator_raises_name_error { label := some "NAME" } "NAME" (by rfl)

/-- C3 (code bug in the source): whenever a datasource ending in `shp` is
supplied, `main` executes `if srid is not None:` (source line 177) with
`srid` unbound — `main` never reads `options['srid']` and no global `srid`
exists — so the build raises `NameError` unconditionally instead of
attaching the spatial reference (whether or not an explicit srid was
passed, and `proj4_from_osr` is unreachable). -/
theorem c3_main_reads_unbound_srid (root : SLDRoot) (srid : Option Int) (ds : String)
    (h : pyEndsWith ds "shp" = true) :
    main root (some ds) srid = .error (.nameError "srid") := by
  simp [main, h]

/-- C3, witness: a shapefile datasource with an explicit srid. -/
theorem c3_witness :
    main {} (some "foo.shp") (some 4326) = .error (.nameError "srid") :=
  c3_main_reads_unbound_srid {} (some 4326) "foo.shp" (by decide)

/-- C10: a successfully translated layer has at least one `UserStyle`, at
least one `FeatureTypeStyle` under each `UserStyle`, and at least one
`Rule` under each `FeatureTypeStyle` (each absence is an `AttributeError`
that aborts the translation), and the result never contains a layer with
zero styles or a style with zero rules. -/
theorem c10_layer_requires_children (layer : LayerNode) (ml : MLayer)
    (styles : List (String × MStyle))
    (h : ogc_layer_to_mapnik layer = .ok (ml, styles)) :
    layer.userStyles ≠ [] ∧
    (∀ us ∈ layer.userStyles, us.featureTypeStyles ≠ []) ∧
    (∀ us ∈ layer.userStyles, ∀ fts ∈ us.featureTypeStyles, fts.rules ≠ []) ∧
    styles ≠ [] ∧
    (∀ p ∈ styles, p.2.rules ≠ []) := by
  simp only [ogc_layer_to_mapnik] at h
  split at h
  · cases h
  · rename_i hue
    cases hp : processUS (orDefault layer.name "Layer") 0 layer.userStyles with
    | error e => rw [hp] at h; cases h
    | ok trip =>
      rw [hp] at h
      obtain ⟨ns, sts, idxE⟩ := trip
      cases h
      obtain ⟨_, _, u3, u4, u5, u6⟩ := processUS_ok _ _ _ _ _ _ hp
      have hne : layer.userStyles ≠ [] := by
        intro hnil
        rw [hnil] at hue
        exact hue rfl
      exact ⟨hne, u3, u4, u6 hne, u5⟩

/-- C10, witness at the `roads` layer. -/
theorem c10_witness :
    roadsLayer.userStyles ≠ [] ∧
    (∀ us ∈ roadsLayer.userStyles, us.featureTypeStyles ≠ []) ∧
    (∀ us ∈ roadsLayer.userStyles, ∀ fts ∈ us.featureTypeStyles, fts.rules ≠ []) ∧
    ([("roads 0", ({ rules := [{ name := "" }] } : MStyle))] :
        List (String × MStyle)) ≠ [] ∧
    (∀ p ∈ ([("roads 0", ({ rules := [{ name := "" }] } : MStyle))] :
        List (String × MStyle)), p.2.rules ≠ []) :=
  c10_layer_requires_children roadsLayer
    { name := "roads", styleNames := ["roads 0"] }
    [("roads 0", { rules := [{ name := "" }] })] (by rfl)

/-- C4, counterexample: the tag `…PropertyIsGreaterThanOrEqualTo` is none
of the seven claimed predicate names (bare or OGC-qualified), yet the
compiler accepts it instead of failing — substring dispatch sends it to the
`Or` branch (its local name contains `Or`), which joins its zero children
into the empty expression. -/
theorem c4_counterexample :
    (["And", "Or", "PropertyIsGreaterThan", "PropertyIsLessThan",
      "PropertyIsEqualTo", "PropertyIsNotEqualTo", "PropertyIsBetween"].all
        (fun n => (ogcTag "PropertyIsGreaterThanOrEqualTo" != n) &&
          (ogcTag "PropertyIsGreaterThanOrEqualTo" != ogcTag n))) = true ∧
    _ogc_filter_to_expression
      (.mk (ogcTag "PropertyIsGreaterThanOrEqualTo") "" .nil) = .ok "" :=
  ⟨by decide, rfl⟩

/-- C4, amended: dispatch in `_ogc_filter_to_expression` is by substring
containment on the tag, tested in source order (`And`, `Or`,
`PropertyIsGreaterThan`, `PropertyIsLessThan`, `PropertyIsEqualTo`,
`PropertyIsNotEqualTo`, `PropertyIsBetween`); a predicate node whose tag
contains none of these seven substrings — not "is not one of the seven
tags" — fails fatally with the unrecognized-predicate `AssertionError`,
while a tag that merely contains one of the substrings is compiled by the
first matching branch. -/
theorem c4_amended_substring_dispatch (tag text : String) (children : PForest)
    (h1 : pyIn "And" tag = false) (h2 : pyIn "Or" tag = false)
    (h3 : pyIn "PropertyIsGreaterThan" tag = false)
    (h4 : pyIn "PropertyIsLessThan" tag = false)
    (h5 : pyIn "PropertyIsEqualTo" tag = false)
    (h6 : pyIn "PropertyIsNotEqualTo" tag = false)
    (h7 : pyIn "PropertyIsBetween" tag = false) :
    _ogc_filter_to_expression (.mk tag text children) =
      .error (.assertionError tag) := by
  simp [_ogc_filter_to_expression, h1, h2, h3, h4, h5, h6, h7]

/-- C4, amended, witness: an unrecognized predicate tag is rejected. -/
theorem c4_amended_witness :
    _ogc_filter_to_expression (.mk (ogcTag "SomePredicate") "" .nil) =
      .error (.assertionError (ogcTag "SomePredicate")) :=
  c4_amended_substring_dispatch (ogcTag "SomePredicate") "" PForest.nil
    (by decide) (by decide) (by decide) (by decide) (by decide) (by decide)
    (by decide)

/-- C5: a `PropertyIsBetween` filter over a `PropertyName` and
`Literal` lower/upper boundaries compiles to exactly
`"[name] > lower"` then `"and "` (appended without a preceding space)
then `"[name] < upper"`: strict comparisons, the same bracketed property
on both sides, and — when neither the name nor the rendered bounds contain
a comparison character — exactly one `>` and exactly one `<` in the whole
expression. -/
theorem c5_between_desugaring (nm lo hi txt : String)
    (hn1 : nm.data.count '>' = 0) (hn2 : nm.data.count '<' = 0)
    (hl1 : (litRepr lo).data.count '>' = 0)
    (hl2 : (litRepr lo).data.count '<' = 0)
    (hh1 : (litRepr hi).data.count '>' = 0)
    (hh2 : (litRepr hi).data.count '<' = 0) :
    _ogc_filter_to_expression
      (.mk (ogcTag "PropertyIsBetween") txt
        (.cons (.mk (ogcTag "PropertyName") nm .nil)
          (.cons (.mk (ogcTag "LowerBoundary") ""
              (.cons (.mk (ogcTag "Literal") lo .nil) .nil))
            (.cons (.mk (ogcTag "UpperBoundary") ""
                (.cons (.mk (ogcTag "Literal") hi .nil) .nil)) .nil)))) =
      .ok ("[" ++ nm ++ "]" ++ " " ++ ">" ++ " " ++ litRepr lo ++ "and " ++
           ("[" ++ nm ++ "]" ++ " " ++ "<" ++ " " ++ litRepr hi)) ∧
    ("[" ++ nm ++ "]" ++ " " ++ ">" ++ " " ++ litRepr lo ++ "and " ++
      ("[" ++ nm ++ "]" ++ " " ++ "<" ++ " " ++ litRepr hi)).data.count '>' = 1 ∧
    ("[" ++ nm ++ "]" ++ " " ++ ">" ++ " " ++ litRepr lo ++ "and " ++
      ("[" ++ nm ++ "]" ++ " " ++ "<" ++ " " ++ litRepr hi)).data.count '<' = 1 := by
  refine ⟨?_, ?_, ?_⟩
  · simp [_ogc_filter_to_expression, PNode.tag, PNode.text, PNode.children,
      PForest.findTag, PForest.toList, _compile_bin_op, exMap,
      translate_property_name, translate_literal,
      exBind_ok, exBind_err, exMapF_ok, exMapF_err,
      (by decide : pyIn "And" (ogcTag "PropertyIsBetween") = false),
      (by decide : pyIn "Or" (ogcTag "PropertyIsBetween") = false),
      (by decide : pyIn "PropertyIsGreaterThan" (ogcTag "PropertyIsBetween") = false),
      (by decide : pyIn "PropertyIsLessThan" (ogcTag "PropertyIsBetween") = false),
      (by decide : pyIn "PropertyIsEqualTo" (ogcTag "PropertyIsBetween") = false),
      (by decide : pyIn "PropertyIsNotEqualTo" (ogcTag "PropertyIsBetween") = false),
      (by decide : pyIn "PropertyIsBetween" (ogcTag "PropertyIsBetween") = true),
      (by decide : ¬(ogcTag "PropertyName" = ogcTag "LowerBoundary")),
      (by decide : ¬(ogcTag "PropertyName" = ogcTag "UpperBoundary")),
      (by decide : ¬(ogcTag "LowerBoundary" = ogcTag "PropertyName")),
      (by decide : ¬(ogcTag "UpperBoundary" = ogcTag "PropertyName")),
      (by decide : ¬(ogcTag "LowerBoundary" = ogcTag "UpperBoundary"))]
  · simp only [strData_append, List.count_append, hn1, hl1, hh1]
    decide
  · simp only [strData_append, List.count_append, hn2, hl2, hh2]
    decide

/-- C5, witness at the spec's scenario `[area] > 10and [area] < 20`. -/
theorem c5_witness :
    _ogc_filter_to_expression
      (.mk (ogcTag "PropertyIsBetween") ""
        (.cons (.mk (ogcTag "PropertyName") "area" .nil)
          (.cons (.mk (ogcTag "LowerBoundary") ""
              (.cons (.mk (ogcTag "Literal") "10" .nil) .nil))
            (.cons (.mk (ogcTag "UpperBoundary") ""
                (.cons (.mk (ogcTag "Literal") "20" .nil) .nil)) .nil)))) =
      .ok ("[" ++ "area" ++ "]" ++ " " ++ ">" ++ " " ++ litRepr "10" ++ "and " ++
           ("[" ++ "area" ++ "]" ++ " " ++ "<" ++ " " ++ litRepr "20")) ∧
    ("[" ++ "area" ++ "]" ++ " " ++ ">" ++ " " ++ litRepr "10" ++ "and " ++
      ("[" ++ "area" ++ "]" ++ " " ++ "<" ++ " " ++ litRepr "20")).data.count '>' = 1 ∧
    ("[" ++ "area" ++ "]" ++ " " ++ ">" ++ " " ++ litRepr "10" ++ "and " ++
      ("[" ++ "area" ++ "]" ++ " " ++ "<" ++ " " ++ litRepr "20")).data.count '<' = 1 :=
  c5_between_desugaring "area" "10" "20" "" (by decide) (by decide) (by decide)
    (by decide) (by decide) (by decide)

/-- C6: a `Literal` leaf is emitted unquoted exactly when Python's
`float()` accepts its text and the text does not begin with the character
`0`; every other literal is emitted wrapped in single quotes, and a
`PropertyName` leaf is emitted as the name wrapped in square brackets. -/
theorem c6_literal_quoting (t nm : String) :
    _translate_literal_or_property_name (.mk (ogcTag "Literal") t .nil) =
      .ok (if pyFloatAccepts t && !(pyStartsWith t "0") then t
           else "'" ++ t ++ "'") ∧
    _translate_literal_or_property_name (.mk (ogcTag "PropertyName") nm .nil) =
      .ok ("[" ++ nm ++ "]") ∧
    is_number t = (pyFloatAccepts t && !(pyStartsWith t "0")) := by
  have hn : is_number t = (pyFloatAccepts t && !(pyStartsWith t "0")) := by
    simp only [is_number]
    cases hp : pyStartsWith t "0" <;> simp [hp]
  refine ⟨?_, translate_property_name nm, hn⟩
  rw [translate_literal, litRepr, hn]

/-- C7: a successfully translated `PolygonSymbolizer` yields exactly two
symbolizers when a `Stroke` child is present — one Line symbolizer built by
the shared Stroke-building logic, then one Polygon symbolizer carrying the
translated fill — and exactly one Polygon symbolizer when it is absent. -/
theorem c7_polygon_symbolizer_counts (sym : PolygonSymNode)
    (syms : List Symbolizer)
    (h : ogc_PolygonSymbolizer_to_mapnik sym = .ok syms) :
    match sym.stroke with
    | some st =>
      ∃ ms mp, stroke_to_mapnik st = .ok ms ∧
        processPolyFill sym.fill = .ok mp ∧
        syms = [.line ms, .polygon mp] ∧ syms.length = 2
    | none =>
      ∃ mp, processPolyFill sym.fill = .ok mp ∧
        syms = [.polygon mp] ∧ syms.length = 1 := by
  rw [ogc_PolygonSymbolizer_to_mapnik] at h
  cases hf : processPolyFill sym.fill with
  | error e => rw [hf] at h; cases h
  | ok mp =>
    rw [hf] at h
    simp only [exBind_ok] at h
    split at h
    · rename_i st hs
      cases hst : stroke_to_mapnik st with
      | error e => rw [hst] at h; cases h
      | ok ms =>
        rw [hst] at h
        simp only [exBind_ok] at h
        cases h
        exact ⟨ms, mp, rfl, rfl, rfl, rfl⟩
    · rename_i hs
      cases h
      exact ⟨mp, rfl, rfl, rfl⟩

/-- C7, witness at the spec's scenario (red fill, black stroke of
width 2). -/
theorem c7_witness :
    (match polyScenario.stroke with
     | some st =>
       ∃ ms mp, stroke_to_mapnik st = .ok ms ∧
         processPolyFill polyScenario.fill = .ok mp ∧
         ([Symbolizer.line { color := some "#000000", width := some "2" },
           Symbolizer.polygon { fill := some "#ff0000" }] : List Symbolizer) =
           [.line ms, .polygon mp] ∧
         ([Symbolizer.line { color := some "#000000", width := some "2" },
           Symbolizer.polygon { fill := some "#ff0000" }] :
             List Symbolizer).length = 2
     | none =>
       ∃ mp, processPolyFill polyScenario.fill = .ok mp ∧
         ([Symbolizer.line { color := some "#000000", width := some "2" },
           Symbolizer.polygon { fill := some "#ff0000" }] : List Symbolizer) =
           [.polygon mp] ∧
         ([Symbolizer.line { color := some "#000000", width := some "2" },
           Symbolizer.polygon { fill := some "#ff0000" }] :
             List Symbolizer).length = 1) :=
  c7_polygon_symbolizer_counts polyScenario
    [.line { color := some "#000000", width := some "2" },
     .polygon { fill := some "#ff0000" }] (by rfl)

/-- C8: a rule child whose tag ends in `Symbolizer` but is registered to no
translator contributes zero symbolizers and one logged warning, and the
rest of the rule translates exactly as it would without that child (same
rule, same symbol list, the warning prepended, errors unchanged). -/
theorem c8_unrecognized_symbolizer_skipped (c : RuleChild) (r : RuleNode)
    (h1 : pyEndsWith c.tag "Symbolizer" = true)
    (h2 : get_translator c.tag = none) :
    processChild c = .ok ([], [warnMsg c.tag]) ∧
    ogc_rule_to_mapnik { r with children := c :: r.children } =
      (ogc_rule_to_mapnik r).map (fun p => (p.1, warnMsg c.tag :: p.2)) := by
  have hpc : processChild c = .ok ([], [warnMsg c.tag]) := by
    rw [processChild, pyIn_of_pyEndsWith h1, h2]
    rfl
  obtain ⟨rn, rf, re, rmx, rmn, rc⟩ := r
  refine ⟨hpc, ?_⟩
  simp only [ogc_rule_to_mapnik]
  have hpre : rulePrelim ⟨rn, rf, re, rmx, rmn, c :: rc⟩ =
      rulePrelim ⟨rn, rf, re, rmx, rmn, rc⟩ := rfl
  rw [hpre]
  cases hp : rulePrelim ⟨rn, rf, re, rmx, rmn, rc⟩ with
  | error e => simp [exBind_err, exMapF_err]
  | ok filt =>
    simp only [exBind_ok]
    rw [exMap_cons_ok processChild c rc ([], [warnMsg c.tag]) hpc]
    cases hm : exMap processChild rc with
    | error e => simp [exMapF_err, exBind_err]
    | ok results => simp [exMapF_ok, exBind_ok]

/-- C8, witness: a child tagged `{sld}FooSymbolizer` inside an otherwise
empty rule. -/
theorem c8_witness :
    processChild fooSymChild = .ok ([], [warnMsg fooSymChild.tag]) ∧
    ogc_rule_to_mapnik
        { ({} : RuleNode) with
          children := fooSymChild :: ({} : RuleNode).children } =
      (ogc_rule_to_mapnik {}).map
        (fun p => (p.1, warnMsg fooSymChild.tag :: p.2)) :=
  c8_unrecognized_symbolizer_skipped fooSymChild {} (by decide) (by decide)

/-! ## Theorems: hex rendering facts for the color normalizer -/

theorem rgb_to_hex_head (t : Nat × Nat × Nat) :
    (rgb_to_hex t).data =
      '#' :: ((hex2 t.1).data ++ (hex2 t.2.1).data ++ (hex2 t.2.2).data) := by
  simp only [rgb_to_hex, strData_append]
  rfl

theorem rgb_to_hex_not_rgb (t : Nat × Nat × Nat) :
    pyStartsWith (rgb_to_hex t) "rgb(" = false := by
  rw [pyStartsWith, rgb_to_hex_head]
  rfl

theorem rgb_to_hex_hash (t : Nat × Nat × Nat) :
    pyStartsWith (rgb_to_hex t) "#" = true := by
  rw [pyStartsWith, rgb_to_hex_head]
  rfl

theorem hex2_data_length {n : Nat} (h : n < 256) : (hex2 n).data.length = 2 := by
  rw [hex2, if_pos h]
  rfl

theorem rgb_to_hex_length (r g b : Nat) (hr : r < 256) (hg : g < 256)
    (hb : b < 256) : (rgb_to_hex (r, g, b)).length = 7 := by
  calc (rgb_to_hex (r, g, b)).length = (rgb_to_hex (r, g, b)).data.length := rfl
    _ = 7 := by
        rw [rgb_to_hex_head]
        simp [List.length_append, hex2_data_length hr, hex2_data_length hg,
          hex2_data_length hb]

/-! ## Theorems: the color normalizer pass is pointwise idempotent -/

theorem fixAttr_invol (p : String → Nat × Nat × Nat) (a : String × String) :
    fixAttr p (fixAttr p a) = fixAttr p a := by
  obtain ⟨n, v⟩ := a
  cases hv : pyStartsWith v "rgb(" with
  | true => simp [fixAttr, hv, rgb_to_hex_not_rgb]
  | false => simp [fixAttr, hv]

theorem fixChild_invol (p : String → Nat × Nat × Nat) (c : SymChild) :
    fixChild p (fixChild p c) = fixChild p c := by
  obtain ⟨tag, attrs⟩ := c
  cases ht : pyEndsWith tag "Symbolizer" with
  | true => simp [fixChild, ht, List.map_map, Function.comp, fixAttr_invol]
  | false => simp [fixChild, ht]

theorem fixRule_invol (p : String → Nat × Nat × Nat) (r : ORule) :
    fixRule p (fixRule p r) = fixRule p r := by
  obtain ⟨children⟩ := r
  simp [fixRule, List.map_map, Function.comp, fixChild_invol]

theorem fixStyle_invol (p : String → Nat × Nat × Nat) (st st' : OStyle)
    (h : fixStyle p st = .ok st') : fixStyle p st' = .ok st' := by
  obtain ⟨rules⟩ := st
  rw [fixStyle] at h
  split at h
  · cases h
  · rename_i hne
    cases h
    rw [fixStyle]
    cases hrr : rules with
    | nil => exact absurd (by rw [hrr]; rfl) hne
    | cons a as =>
      simp [List.map_map, Function.comp, fixRule_invol]

/-- C9: the color normalizer is idempotent — a second pass over an already
normalized document is the identity, because every attribute value that
started with `rgb(` has been replaced by a hex rendering starting with `#`
(so no longer matches) and every other value was untouched — and the hex
rendering of an `(r, g, b)` triple is always the 7-character
`#`-plus-6-hex-digit form, in which the functional `rgb(r,g,b)` value
(which carries no alpha) loses nothing. -/
theorem c9_fix_colors_idempotent (parseColor : String → Nat × Nat × Nat)
    (t t' : OTree) (r g b : Nat)
    (h : fix_colors parseColor t = .ok t')
    (hr : r < 256) (hg : g < 256) (hb : b < 256) :
    fix_colors parseColor t' = .ok t' ∧
    (rgb_to_hex (r, g, b)).length = 7 ∧
    pyStartsWith (rgb_to_hex (r, g, b)) "#" = true ∧
    pyStartsWith (rgb_to_hex (r, g, b)) "rgb(" = false := by
  refine ⟨?_, rgb_to_hex_length r g b hr hg hb, rgb_to_hex_hash _,
    rgb_to_hex_not_rgb _⟩
  obtain ⟨styles⟩ := t
  rw [fix_colors] at h
  split at h
  · rename_i hemp
    cases h
    rw [fix_colors, if_pos hemp]
  · rename_i hemp
    cases hm : exMap (fixStyle parseColor) styles with
    | error e => rw [hm] at h; cases h
    | ok styles' =>
      rw [hm] at h
      simp only [exBind_ok] at h
      cases h
      rw [fix_colors]
      have hlen := exMap_length _ _ _ hm
      have hne : ¬((OTree.styles ⟨styles'⟩).isEmpty = true) := by
        cases hss : styles' with
        | nil =>
          exfalso
          apply hemp
          rw [hss] at hlen
          rw [List.eq_nil_of_length_eq_zero hlen.symm]
          rfl
        | cons a as => simp
      rw [if_neg hne]
      rw [exMap_invol (fixStyle parseColor)
        (fun a b hab => fixStyle_invol parseColor a b hab) styles styles' hm]
      rfl

/-- C9, witness: the sample document is a fixed point after one pass. -/
theorem c9_witness :
    fix_colors sampleParse rgbSampleFixed = .ok rgbSampleFixed ∧
    (rgb_to_hex (255, 0, 0)).length = 7 ∧
    pyStartsWith (rgb_to_hex (255, 0, 0)) "#" = true ∧
    pyStartsWith (rgb_to_hex (255, 0, 0)) "rgb(" = false :=
  c9_fix_colors_idempotent sampleParse rgbSampleTree rgbSampleFixed 255 0 0
    (by rfl) (by decide) (by decide) (by decide)

/-! ## Sanity theorems grounding the embedding on concrete inputs -/

/-- The `float()` acceptance model behaves like CPython on representative
inputs: plain and exponent numerals and padded/signed decimals and the
case-insensitive infinity forms are accepted; a bare dot and an inner
space are rejected; `is_number` rejects a leading-zero numeral and accepts
a negative decimal. -/
theorem pyFloat_model_samples :
    pyFloatAccepts "10" = true ∧ pyFloatAccepts "1e5" = true ∧
    pyFloatAccepts "." = false ∧ pyFloatAccepts " -12.5 " = true ∧
    pyFloatAccepts "Inf" = true ∧ pyFloatAccepts "1 2" = false ∧
    is_number "007" = false ∧ is_number "-0.5" = true := by decide

/-- A `TextSymbolizer` without a `Label` child fails on the `text.Label`
attribute access, before the unbound `rule` is ever read. -/
theorem text_translator_missing_label :
    ogc_TextSymbolizer_to_mapnik { label := none } =
      .error (.attributeError "Label") := rfl

/-- The spec's scenario `[pop] > 1000000` compiles as stated. -/
theorem scenario_pop_greater_than :
    _ogc_filter_to_expression
      (.mk (ogcTag "PropertyIsGreaterThan") ""
        (.cons (.mk (ogcTag "PropertyName") "pop" .nil)
          (.cons (.mk (ogcTag "Literal") "1000000" .nil) .nil))) =
      .ok "[pop] > 1000000" := by rfl

end Geotools2Mapnik
